import Mathlib

/-!
Shallow embedding of the qr-scanner-client camera session lifecycle controller
(`src/src/components/QRScanner.tsx`) and of the remote logging transport
(`src/unnamed/part_002`, the `remoteLog` module).

The React component is modelled as a state machine: the component state
(`CState`) collects the `useState` variables, the two `useRef` cells
(`scannerServiceRef`, `hasAutoStartedRef`) and a ledger of every
`ScannerService` instance ever constructed, together with bookkeeping of
which asynchronous continuations are still pending.  Every synchronous block
of JavaScript between two `await` suspension points is one atomic `step` of
the machine, driven by an `Event`.

The logging transport is modelled as a pure function from an environment
(availability / outcome of `navigator.sendBeacon`, outcome of `fetch`,
outcome of `JSON.stringify` on the auxiliary payload) to the ordered list of
observable effects (console writes and network send attempts).
-/

namespace QRClient

/-- A `MediaDeviceInfo` as the component uses it: `deviceId` and `label`. -/
structure Device where
  deviceId : String
  label : String
deriving DecidableEq, Repr

/-- A JavaScript value of static type `string | undefined | null`, as needed
to embed the guard `deviceIdToUse === undefined || deviceIdToUse === null`
from `handleStartScan` faithfully. -/
inductive JSStr where
  | undef
  | null
  | str (s : String)
deriving DecidableEq, Repr

/-- JavaScript truthiness test for a `string | undefined | null` value:
`undefined`, `null` and the empty string are falsy. -/
def jsFalsy : JSStr → Bool
  | .undef => true
  | .null => true
  | .str s => s = ""

/-- JavaScript nullish test (`=== undefined || === null`). -/
def nullish : JSStr → Bool
  | .undef => true
  | .null => true
  | .str _ => false

/-- JavaScript nullish coalescing `a ?? b`. -/
def coalesce (a b : JSStr) : JSStr :=
  if nullish a then b else a

/-- Device-id resolution of `handleStartScan` (QRScanner.tsx lines 122-126):
`let deviceIdToUse = deviceIdOverride ?? selectedDeviceId;` followed by
`if (!deviceIdToUse && devices.length > 0) deviceIdToUse = devices[0].deviceId;`.
`selectedDeviceId` is a React `useState<string>` value, hence always a
genuine string. -/
def resolveDeviceId (overrideId : JSStr) (selectedDeviceId : String)
    (devices : List Device) : JSStr :=
  if jsFalsy (coalesce overrideId (JSStr.str selectedDeviceId)) then
    match devices with
    | d :: _ => JSStr.str d.deviceId
    | [] => coalesce overrideId (JSStr.str selectedDeviceId)
  else coalesce overrideId (JSStr.str selectedDeviceId)

/-- One `ScannerService` instance as the client observes it: the device id it
was constructed with, whether its asynchronous `start()` has resolved
successfully, and whether the client has called `stop()` on it. -/
structure ScannerInstance where
  id : Nat
  deviceId : JSStr
  started : Bool
  stopped : Bool
deriving DecidableEq, Repr

/-- A hardware stream / decode session is open for an instance exactly when
its `start()` has succeeded and the client has not yet called `stop()` on it
(`stop()` releases the stream per the decode-engine capability contract). -/
def openInstance (inst : ScannerInstance) : Bool :=
  inst.started && !inst.stopped

/-- Mark the instance with the given id as stopped
(`scannerServiceRef.current.stop()`). -/
def stopInstance (insts : List ScannerInstance) (i : Nat) : List ScannerInstance :=
  insts.map fun inst => if inst.id = i then { inst with stopped := true } else inst

/-- Mark the instance with the given id as started (its `start()` promise
resolved successfully). -/
def startInstance (insts : List ScannerInstance) (i : Nat) : List ScannerInstance :=
  insts.map fun inst => if inst.id = i then { inst with started := true } else inst

/-- The component state of `QRScanner`: the `useState` variables, the two
refs, the ledger of constructed `ScannerService` instances, and bookkeeping
of pending asynchronous continuations (`start()` promises still in flight
and post-start device-list refreshes still in flight). `cancelled` is the
mount effect's cancellation flag, `videoAvailable` models
`videoRef.current` being non-null. -/
structure CState where
  devices : List Device
  selectedDeviceId : String
  isScanning : Bool
  isLoadingCameras : Bool
  scanResult : Option String
  error : Option String
  scannerRef : Option Nat
  hasAutoStarted : Bool
  instances : List ScannerInstance
  nextId : Nat
  pendingStarts : List Nat
  pendingRefreshes : Nat
  cancelled : Bool
  videoAvailable : Bool
deriving DecidableEq, Repr

/-- The component's initial state (QRScanner.tsx lines 11-22). -/
def initState (videoOk : Bool) : CState where
  devices := []
  selectedDeviceId := ""
  isScanning := false
  isLoadingCameras := true
  scanResult := none
  error := none
  scannerRef := none
  hasAutoStarted := false
  instances := []
  nextId := 0
  pendingStarts := []
  pendingRefreshes := 0
  cancelled := false
  videoAvailable := videoOk

/-- The block `if (scannerServiceRef.current) { scannerServiceRef.current.stop();
scannerServiceRef.current = null; }`, shared verbatim by `handleStopScan`,
`handleStartScan` and the unmount cleanup. -/
def dropService (s : CState) : CState :=
  match s.scannerRef with
  | some i => { s with instances := stopInstance s.instances i, scannerRef := none }
  | none => s

/-- `handleStopScan` (QRScanner.tsx lines 197-205): stop and drop the current
`ScannerService` if any, then `setIsScanning(false)`. -/
def handleStopScan (s : CState) : CState :=
  { dropService s with isScanning := false }

/-- The synchronous prefix of `handleStartScan` (QRScanner.tsx lines
116-164), up to and including the call `scannerServiceRef.current.start()`
whose resolution is a separate event.  Returns the new state and, when a
start actually proceeds, the id of the freshly constructed instance whose
`start()` promise is now in flight. -/
def handleStartScanSync (s : CState) (overrideId : JSStr) : CState × Option Nat :=
  if !s.videoAvailable then
    ({ s with error := some "Video element reference is not available." }, none)
  else if nullish (resolveDeviceId overrideId s.selectedDeviceId s.devices) then
    ({ s with error := some "No camera device available or selected." }, none)
  else if s.isScanning then
    (s, none)
  else
    let s2 := dropService { s with error := none, scanResult := none, isScanning := true }
    let inst : ScannerInstance :=
      { id := s2.nextId
        deviceId := resolveDeviceId overrideId s.selectedDeviceId s.devices
        started := false
        stopped := false }
    ({ s2 with
        instances := s2.instances ++ [inst]
        scannerRef := some inst.id
        nextId := s2.nextId + 1 }, some inst.id)

/-- Register the in-flight `start()` promise produced by
`handleStartScanSync`, if any. -/
def applyStart (p : CState × Option Nat) : CState :=
  match p with
  | (s, some i) => { s with pendingStarts := s.pendingStarts ++ [i] }
  | (s, none) => s

/-- `handleError` callback (QRScanner.tsx lines 95-100). -/
def handleErrorCb (s : CState) (msg : String) : CState :=
  { s with
      error := some (if msg = "" then "An unknown error occurred during scanning." else msg)
      scanResult := none
      isScanning := false }

/-- `handleScanSuccess` callback (QRScanner.tsx lines 88-93). -/
def handleScanSuccessCb (s : CState) (result : String) : CState :=
  { s with scanResult := some result, error := none }

/-- `handleDeviceChange` (QRScanner.tsx lines 104-114): update the selection;
if scanning, stop; otherwise start with the new id. -/
def handleDeviceChange (s : CState) (newId : String) : CState × Option Nat :=
  if s.isScanning then (handleStopScan { s with selectedDeviceId := newId }, none)
  else handleStartScanSync { s with selectedDeviceId := newId } (JSStr.str newId)

/-- The auto-start effect (QRScanner.tsx lines 189-195). -/
def autoStartEffect (s : CState) : CState × Option Nat :=
  if !s.isLoadingCameras && !s.devices.isEmpty && !s.isScanning && !s.hasAutoStarted then
    let idToStart :=
      if s.selectedDeviceId ≠ "" then s.selectedDeviceId
      else
        match s.devices with
        | d :: _ => d.deviceId
        | [] => ""
    let s := { s with hasAutoStarted := true }
    handleStartScanSync s (JSStr.str idToStart)
  else (s, none)

/-- The guard condition of the auto-start effect as a Bool, for counting. -/
def triggersAutoStart (s : CState) : Bool :=
  !s.isLoadingCameras && !s.devices.isEmpty && !s.isScanning && !s.hasAutoStarted

/-- Completion of the mount effect's enumeration (`primeAndList`,
QRScanner.tsx lines 41-68): `none` models the rejection of
`CameraManager.listDevices()`.  The continuation checks the `cancelled`
flag before mutating state. -/
def enumDone (s : CState) (res : Option (List Device)) : CState :=
  if s.cancelled then s
  else
    match res with
    | some devs =>
      let s :=
        { s with
            devices := devs
            selectedDeviceId :=
              match devs with
              | d :: _ => d.deviceId
              | [] => ""
            error := none }
      { s with isLoadingCameras := false }
    | none =>
      let s :=
        { s with
            error := some "Failed to list cameras"
            devices := []
            selectedDeviceId := "" }
      { s with isLoadingCameras := false }

/-- Completion of the post-start device-list refresh (QRScanner.tsx lines
167-178): replace the device list only when some refreshed device has a
non-empty label (`videoDevices.some(d => d.label && d.label !== '')`);
a rejected refresh only logs a warning. -/
def refreshDone (s : CState) (res : Option (List Device)) : CState :=
  match res with
  | some devs =>
    if devs.any (fun d => d.label ≠ "") then { s with devices := devs } else s
  | none => s

/-- Events driving the component: user interactions, effect executions and
resolutions of the asynchronous suspension points. -/
inductive Event where
  | startCall (overrideId : JSStr)
  | stopCall
  | deviceChange (newId : String)
  | autoStart
  | enumCompleted (res : Option (List Device))
  | startResolved (i : Nat) (ok : Bool)
  | refreshCompleted (res : Option (List Device))
  | scanSuccess (result : String)
  | scanError (msg : String)
  | unmount
deriving DecidableEq, Repr

/-- One atomic step of the component: each case is the synchronous
JavaScript block the event triggers. -/
def step (s : CState) : Event → CState
  | .startCall ov => applyStart (handleStartScanSync s ov)
  | .stopCall => handleStopScan s
  | .deviceChange newId => applyStart (handleDeviceChange s newId)
  | .autoStart => applyStart (autoStartEffect s)
  | .enumCompleted res => enumDone s res
  | .startResolved i ok =>
    if i ∈ s.pendingStarts then
      if ok then
        { s with
            instances := startInstance s.instances i
            pendingStarts := s.pendingStarts.erase i
            pendingRefreshes := s.pendingRefreshes + 1 }
      else
        handleErrorCb { s with pendingStarts := s.pendingStarts.erase i }
          "ScannerService start failed"
    else s
  | .refreshCompleted res =>
    if s.pendingRefreshes > 0 then
      refreshDone { s with pendingRefreshes := s.pendingRefreshes - 1 } res
    else s
  | .scanSuccess result => handleScanSuccessCb s result
  | .scanError msg => handleErrorCb s msg
  | .unmount => dropService { s with cancelled := true }

/-- Run a sequence of events from a state. -/
def run (s : CState) (evs : List Event) : CState :=
  evs.foldl step s

/-- Number of currently open hardware streams / decode sessions. -/
def openCount (s : CState) : Nat :=
  (s.instances.filter openInstance).length

/-- Number of automatic starts actually fired along an event sequence:
`autoStart` events whose guard condition holds when they execute. -/
def countAutoStarts : CState → List Event → Nat
  | _, [] => 0
  | s, e :: evs =>
    (if e = Event.autoStart ∧ triggersAutoStart s then 1 else 0) +
      countAutoStarts (step s e) evs

/-- Clause 1 of the session invariant, on the raw data: every instance the
client has not yet called `stop()` on is the one currently held by
`scannerServiceRef`. -/
def refOwnsL (insts : List ScannerInstance) (ref : Option Nat) : Prop :=
  ∀ inst ∈ insts, inst.stopped = false → ref = some inst.id

/-- Number of instances not yet stopped (streams possibly still held). -/
def liveCountL (insts : List ScannerInstance) : Nat :=
  (insts.filter fun inst => !inst.stopped).length

/-- The session invariant maintained by every event. -/
def Inv (s : CState) : Prop :=
  refOwnsL s.instances s.scannerRef ∧ liveCountL s.instances ≤ 1

/-- A concrete reachable-shaped state in which the controller is Active:
scanning with one open scanner-service instance on device "cam1". -/
def cActiveExample : CState :=
  { initState true with
      isScanning := true
      scannerRef := some 0
      isLoadingCameras := false
      hasAutoStarted := true
      selectedDeviceId := "cam1"
      devices := [{ deviceId := "cam1", label := "Front" },
                  { deviceId := "cam2", label := "Back" }]
      instances := [{ id := 0, deviceId := JSStr.str "cam1", started := true,
                      stopped := false }]
      nextId := 1 }

end QRClient

namespace RemoteLog

/-- The `LogLevel` enum of the remoteLog module. -/
inductive LogLevel where
  | info
  | warn
  | error
  | debug
deriving DecidableEq, Repr

/-- The string value of each `LogLevel` member. -/
def levelName : LogLevel → String
  | .info => "INFO"
  | .warn => "WARN"
  | .error => "ERROR"
  | .debug => "DEBUG"

/-- The console method `remoteLog` dispatches to for each level
(lines 53-67): `error`, `warn`, `debug`, and `log` for `INFO`/default. -/
def consoleStreamFor : LogLevel → String
  | .error => "error"
  | .warn => "warn"
  | .debug => "debug"
  | .info => "log"

/-- The structured payload POSTed to `/log` (lines 72-79). -/
structure LogPayload where
  clientId : String
  source : String
  level : String
  component : String
  message : String
  dataString : String
deriving DecidableEq, Repr

/-- An observable effect of one `remoteLog` emission, in order: a console
write on a given stream, a `navigator.sendBeacon` attempt, or a `fetch`
attempt with its `keepalive` flag. -/
inductive Effect where
  | console (stream : String) (msg : String)
  | beacon (url : String) (payload : LogPayload)
  | fetchReq (url : String) (payload : LogPayload) (keepalive : Bool)
deriving DecidableEq, Repr

/-- Whether an effect is a local console write. -/
def isConsole : Effect → Bool
  | .console _ _ => true
  | _ => false

/-- Whether an effect is a network delivery attempt. -/
def isNetwork : Effect → Bool
  | .beacon _ _ => true
  | .fetchReq _ _ _ => true
  | .console _ _ => false

/-- Environment of one emission: whether `navigator.sendBeacon` exists, what
it returns, and whether the `fetch` promise rejects. -/
structure NetEnv where
  sendBeaconAvailable : Bool
  beaconResult : Bool
  fetchFails : Bool
deriving DecidableEq, Repr

/-- Outcome of `JSON.stringify(data)` on the optional auxiliary payload:
`none` means no `data` argument was passed, `some none` means
stringification threw (non-serializable data), `some (some s)` means it
produced `s`. -/
def dataStringOf : Option (Option String) → String
  | none => ""
  | some (some s) => " " ++ s
  | some none => " [Unserializable data]"

/-- The extra console effect produced while computing `dataString`:
stringification failure is logged with `console.error` (line 44). -/
def dataStringEffects : Option (Option String) → List Effect
  | some none => [Effect.console "error" "[Remote Log] Error stringifying log data:"]
  | _ => []

/-- The formatted single-line record (line 50):
`[Timestamp - ClientId - Level]: [Source - Component] Message DataString`. -/
def formatRecord (timestamp clientId : String) (level : LogLevel)
    (source component message dataString : String) : String :=
  "[" ++ timestamp ++ " - " ++ clientId ++ " - " ++ levelName level ++ "]: [" ++
    source ++ " - " ++ component ++ "] " ++ message ++ dataString

/-- `sendWithFetch` (lines 99-110): a single `fetch` POST to `/log` with
`keepalive: true`; a rejection is logged with `console.error` and never
re-raised or retried. -/
def sendWithFetch (env : NetEnv) (payload : LogPayload) : List Effect :=
  Effect.fetchReq "/log" payload true ::
    (if env.fetchFails then [Effect.console "error" "[Remote Log] Fetch fallback failed:"]
     else [])

/-- `remoteLog` (lines 36-96) as the ordered list of its observable effects:
compute `dataString` (degrading to the placeholder on stringification
failure), write the formatted record to the console, then attempt network
delivery preferring `navigator.sendBeacon`, falling back to `fetch` with
`keepalive` when the beacon is unavailable or returns `false`. -/
def remoteLog (env : NetEnv) (clientId timestamp : String) (source : String)
    (level : LogLevel) (component : String) (message : String)
    (data : Option (Option String)) : List Effect :=
  let dataString := dataStringOf data
  let formatted := formatRecord timestamp clientId level source component message dataString
  let payload : LogPayload :=
    { clientId := clientId
      source := source
      level := levelName level
      component := component
      message := message
      dataString := dataString }
  let net :=
    if env.sendBeaconAvailable then
      Effect.beacon "/log" payload ::
        (if env.beaconResult then []
         else
           Effect.console "warn"
               "[Remote Log] sendBeacon returned false, attempting fetch fallback." ::
             sendWithFetch env payload)
    else sendWithFetch env payload
  dataStringEffects data ++ (Effect.console (consoleStreamFor level) formatted :: net)

/-- Count of beacon attempts in an effect list. -/
def beaconCount (effs : List Effect) : Nat :=
  (effs.filter fun e =>
    match e with
    | .beacon _ _ => true
    | _ => false).length

/-- Count of fetch attempts in an effect list. -/
def fetchCount (effs : List Effect) : Nat :=
  (effs.filter fun e =>
    match e with
    | .fetchReq _ _ _ => true
    | _ => false).length

/-- A fetch effect is well-formed when it targets `/log` and carries the
`keepalive` (survive-page-unload) hint; non-fetch effects are unconstrained. -/
def fetchWellFormed : Effect → Bool
  | .fetchReq url _ ka => url = "/log" && ka
  | _ => true

/-- Whether an effect's network payload (if any) carries the given
`dataString`; console effects are unconstrained. -/
def carriesDataString (t : String) : Effect → Bool
  | .beacon _ p => p.dataString = t
  | .fetchReq _ p _ => p.dataString = t
  | .console _ _ => true

end RemoteLog

namespace QRClient

theorem length_filter_le_of_imp {α : Type} (p q : α → Bool) (l : List α)
    (h : ∀ a ∈ l, p a = true → q a = true) :
    (l.filter p).length ≤ (l.filter q).length := by
  induction l with
  | nil => exact Nat.le_refl _
  | cons a l ih =>
    have ih' := ih fun x hx => h x (List.mem_cons_of_mem a hx)
    by_cases hp : p a = true
    · have hq := h a (List.mem_cons_self a l) hp
      rw [List.filter_cons, List.filter_cons, if_pos hp, if_pos hq]
      simp only [List.length_cons]
      exact Nat.succ_le_succ ih'
    · rw [List.filter_cons, if_neg hp]
      by_cases hq : q a = true
      · rw [List.filter_cons, if_pos hq]
        simp only [List.length_cons]
        exact Nat.le_succ_of_le ih'
      · rw [List.filter_cons, if_neg hq]
        exact ih'

theorem filter_live_nil (insts : List ScannerInstance)
    (h : ∀ x ∈ insts, x.stopped = true) :
    insts.filter (fun x => !x.stopped) = [] := by
  induction insts with
  | nil => rfl
  | cons a l ih =>
    have ha := h a (List.mem_cons_self a l)
    simp [List.filter_cons, ha, ih fun x hx => h x (List.mem_cons_of_mem a hx)]

theorem liveCountL_eq_zero (insts : List ScannerInstance)
    (h : ∀ x ∈ insts, x.stopped = true) : liveCountL insts = 0 := by
  unfold liveCountL
  rw [filter_live_nil insts h]
  rfl

theorem stopInstance_all (insts : List ScannerInstance) (j : Nat)
    (h : refOwnsL insts (some j)) :
    ∀ inst ∈ stopInstance insts j, inst.stopped = true := by
  intro inst' hmem
  unfold stopInstance at hmem
  rw [List.mem_map] at hmem
  obtain ⟨inst, hin, rfl⟩ := hmem
  by_cases hid : inst.id = j
  · simp [hid]
  · rw [if_neg hid]
    cases hstop : inst.stopped with
    | true => rfl
    | false =>
      have := h inst hin hstop
      simp at this
      exact absurd this.symm hid

theorem refOwnsL_none_all (insts : List ScannerInstance)
    (h : refOwnsL insts none) : ∀ x ∈ insts, x.stopped = true := by
  intro x hx
  cases hstop : x.stopped with
  | true => rfl
  | false => exact absurd (h x hx hstop) (by simp)

theorem dropService_scannerRef (s : CState) : (dropService s).scannerRef = none := by
  unfold dropService
  cases href : s.scannerRef with
  | none => exact href
  | some j => rfl

theorem dropService_all_stopped (s : CState)
    (h : refOwnsL s.instances s.scannerRef) :
    ∀ inst ∈ (dropService s).instances, inst.stopped = true := by
  unfold dropService
  cases href : s.scannerRef with
  | none =>
    intro inst hmem
    exact refOwnsL_none_all s.instances (href ▸ h) inst hmem
  | some j =>
    intro inst hmem
    exact stopInstance_all s.instances j (href ▸ h) inst hmem

theorem inv_dropService (s : CState) (h : Inv s) : Inv (dropService s) := by
  have hall := dropService_all_stopped s h.1
  refine ⟨?_, ?_⟩
  · intro x hx hstop
    exact absurd (hall x hx) (by simp [hstop])
  · have := liveCountL_eq_zero _ hall
    omega

theorem liveCountL_append_one (insts : List ScannerInstance) (inst : ScannerInstance)
    (hall : ∀ x ∈ insts, x.stopped = true) :
    liveCountL (insts ++ [inst]) ≤ 1 := by
  unfold liveCountL
  rw [List.filter_append, filter_live_nil insts hall]
  cases hstop : inst.stopped <;> simp [List.filter_cons, hstop]

theorem refOwnsL_append_fresh (insts : List ScannerInstance) (inst : ScannerInstance)
    (hall : ∀ x ∈ insts, x.stopped = true) :
    refOwnsL (insts ++ [inst]) (some inst.id) := by
  intro x hx hstop
  rcases List.mem_append.1 hx with hx | hx
  · exact absurd (hall x hx) (by simp [hstop])
  · simp at hx
    subst hx
    rfl

theorem startInstance_mem {insts : List ScannerInstance} {i : Nat} {inst' : ScannerInstance}
    (h : inst' ∈ startInstance insts i) :
    ∃ inst ∈ insts, inst'.id = inst.id ∧ inst'.stopped = inst.stopped := by
  unfold startInstance at h
  rw [List.mem_map] at h
  obtain ⟨inst, hin, rfl⟩ := h
  refine ⟨inst, hin, ?_⟩
  by_cases hid : inst.id = i <;> simp [hid]

theorem liveCountL_startInstance (insts : List ScannerInstance) (i : Nat) :
    liveCountL (startInstance insts i) = liveCountL insts := by
  induction insts with
  | nil => rfl
  | cons a l ih =>
    unfold liveCountL startInstance at *
    by_cases hid : a.id = i <;> cases hstop : a.stopped <;>
      simp [List.filter_cons, hid, hstop] <;> exact ih

theorem inv_startNew (t : CState) (d : JSStr) (h : Inv t) :
    Inv { dropService t with
            instances := (dropService t).instances ++
              [{ id := (dropService t).nextId, deviceId := d, started := false,
                 stopped := false }]
            scannerRef := some (dropService t).nextId
            nextId := (dropService t).nextId + 1 } := by
  have hall := dropService_all_stopped t h.1
  have h1 := refOwnsL_append_fresh (dropService t).instances
    { id := (dropService t).nextId, deviceId := d, started := false, stopped := false } hall
  have h2 := liveCountL_append_one (dropService t).instances
    { id := (dropService t).nextId, deviceId := d, started := false, stopped := false } hall
  exact ⟨h1, h2⟩

theorem inv_handleStartScanSync (s : CState) (ov : JSStr) (h : Inv s) :
    Inv (handleStartScanSync s ov).1 := by
  unfold handleStartScanSync
  split
  · exact h
  · split
    · exact h
    · split
      · exact h
      · exact inv_startNew { s with error := none, scanResult := none, isScanning := true }
          (resolveDeviceId ov s.selectedDeviceId s.devices) h

theorem inv_applyStart (p : CState × Option Nat) (h : Inv p.1) : Inv (applyStart p) := by
  obtain ⟨s, o⟩ := p
  cases o <;> exact h

theorem inv_startResolvedTrue (t : CState) (i : Nat) (h : Inv t) :
    Inv { t with instances := startInstance t.instances i,
                 pendingStarts := t.pendingStarts.erase i,
                 pendingRefreshes := t.pendingRefreshes + 1 } := by
  refine ⟨?_, ?_⟩
  · intro x hx hstop
    obtain ⟨inst, hin, hid, hstop'⟩ := startInstance_mem hx
    show t.scannerRef = some x.id
    rw [hid]
    exact h.1 inst hin (hstop' ▸ hstop)
  · show liveCountL (startInstance t.instances i) ≤ 1
    rw [liveCountL_startInstance]
    exact h.2

theorem inv_step (s : CState) (e : Event) (h : Inv s) : Inv (step s e) := by
  cases e with
  | startCall ov => exact inv_applyStart _ (inv_handleStartScanSync s ov h)
  | stopCall => exact inv_dropService s h
  | deviceChange newId =>
    show Inv (applyStart (handleDeviceChange s newId))
    unfold handleDeviceChange
    split
    · exact inv_dropService { s with selectedDeviceId := newId } h
    · exact inv_applyStart _
        (inv_handleStartScanSync { s with selectedDeviceId := newId } (JSStr.str newId) h)
  | autoStart =>
    show Inv (applyStart (autoStartEffect s))
    unfold autoStartEffect
    split
    · exact inv_applyStart _
        (inv_handleStartScanSync { s with hasAutoStarted := true } _ h)
    · exact h
  | enumCompleted res =>
    show Inv (enumDone s res)
    unfold enumDone
    repeat' split
    all_goals exact h
  | startResolved i ok =>
    show Inv (if i ∈ s.pendingStarts then
        if ok then
          { s with
              instances := startInstance s.instances i
              pendingStarts := s.pendingStarts.erase i
              pendingRefreshes := s.pendingRefreshes + 1 }
        else
          handleErrorCb { s with pendingStarts := s.pendingStarts.erase i }
            "ScannerService start failed"
      else s)
    split
    · split
      · exact inv_startResolvedTrue s i h
      · exact h
    · exact h
  | refreshCompleted res =>
    show Inv (if s.pendingRefreshes > 0 then
        refreshDone { s with pendingRefreshes := s.pendingRefreshes - 1 } res
      else s)
    unfold refreshDone
    repeat' split
    all_goals exact h
  | scanSuccess result => exact h
  | scanError msg => exact h
  | unmount => exact inv_dropService { s with cancelled := true } h

theorem inv_initState (videoOk : Bool) : Inv (initState videoOk) := by
  refine ⟨?_, ?_⟩
  · intro x hx
    simp [initState] at hx
  · simp [initState, liveCountL]

theorem inv_run (s : CState) (evs : List Event) (h : Inv s) : Inv (run s evs) := by
  induction evs generalizing s with
  | nil => exact h
  | cons e evs ih => exact ih (step s e) (inv_step s e h)

theorem openCount_le_liveCountL (s : CState) : openCount s ≤ liveCountL s.instances := by
  unfold openCount liveCountL
  apply length_filter_le_of_imp
  intro a _ hpa
  simp [openInstance] at hpa
  simp [hpa.2]

theorem resolveDeviceId_isStr (ov : JSStr) (sel : String) (devs : List Device) :
    ∃ t, resolveDeviceId ov sel devs = JSStr.str t := by
  unfold resolveDeviceId
  split
  · split
    · exact ⟨_, rfl⟩
    · cases ov with
      | undef => exact ⟨sel, rfl⟩
      | null => exact ⟨sel, rfl⟩
      | str t => exact ⟨t, rfl⟩
  · cases ov with
    | undef => exact ⟨sel, rfl⟩
    | null => exact ⟨sel, rfl⟩
    | str t => exact ⟨t, rfl⟩

theorem resolveDeviceId_not_nullish (ov : JSStr) (sel : String) (devs : List Device) :
    nullish (resolveDeviceId ov sel devs) = false := by
  obtain ⟨t, ht⟩ := resolveDeviceId_isStr ov sel devs
  rw [ht]
  rfl

theorem dropService_isScanning (s : CState) :
    (dropService s).isScanning = s.isScanning := by
  unfold dropService
  cases href : s.scannerRef <;> rfl

theorem dropService_nextId (s : CState) : (dropService s).nextId = s.nextId := by
  unfold dropService
  cases href : s.scannerRef <;> rfl

theorem dropService_hasAutoStarted (s : CState) :
    (dropService s).hasAutoStarted = s.hasAutoStarted := by
  unfold dropService
  cases href : s.scannerRef <;> rfl

theorem dropService_error (s : CState) : (dropService s).error = s.error := by
  unfold dropService
  cases href : s.scannerRef <;> rfl

theorem applyStart_hasAutoStarted (p : CState × Option Nat) :
    (applyStart p).hasAutoStarted = p.1.hasAutoStarted := by
  obtain ⟨s, o⟩ := p
  cases o <;> rfl

theorem handleStartScanSync_hasAutoStarted (s : CState) (ov : JSStr) :
    (handleStartScanSync s ov).1.hasAutoStarted = s.hasAutoStarted := by
  unfold handleStartScanSync
  split
  · rfl
  · split
    · rfl
    · split
      · rfl
      · exact dropService_hasAutoStarted
          { s with error := none, scanResult := none, isScanning := true }

theorem autoStartEffect_of_done (s : CState) (h : s.hasAutoStarted = true) :
    autoStartEffect s = (s, none) := by
  unfold autoStartEffect
  rw [h]
  simp

theorem refreshDone_hasAutoStarted (s : CState) (res : Option (List Device)) :
    (refreshDone s res).hasAutoStarted = s.hasAutoStarted := by
  unfold refreshDone
  repeat' split
  all_goals rfl

theorem hasAutoStarted_mono (s : CState) (e : Event) (h : s.hasAutoStarted = true) :
    (step s e).hasAutoStarted = true := by
  cases e with
  | startCall ov =>
    show (applyStart (handleStartScanSync s ov)).hasAutoStarted = true
    rw [applyStart_hasAutoStarted, handleStartScanSync_hasAutoStarted]
    exact h
  | stopCall =>
    show (dropService s).hasAutoStarted = true
    rw [dropService_hasAutoStarted]
    exact h
  | deviceChange newId =>
    show (applyStart (handleDeviceChange s newId)).hasAutoStarted = true
    rw [applyStart_hasAutoStarted]
    unfold handleDeviceChange
    split
    · show (dropService { s with selectedDeviceId := newId }).hasAutoStarted = true
      rw [dropService_hasAutoStarted]
      exact h
    · rw [handleStartScanSync_hasAutoStarted]
      exact h
  | autoStart =>
    show (applyStart (autoStartEffect s)).hasAutoStarted = true
    rw [applyStart_hasAutoStarted, autoStartEffect_of_done s h]
    exact h
  | enumCompleted res =>
    show (enumDone s res).hasAutoStarted = true
    unfold enumDone
    repeat' split
    all_goals exact h
  | startResolved i ok =>
    show (if i ∈ s.pendingStarts then
        if ok then
          { s with
              instances := startInstance s.instances i
              pendingStarts := s.pendingStarts.erase i
              pendingRefreshes := s.pendingRefreshes + 1 }
        else
          handleErrorCb { s with pendingStarts := s.pendingStarts.erase i }
            "ScannerService start failed"
      else s).hasAutoStarted = true
    split
    · split
      · exact h
      · exact h
    · exact h
  | refreshCompleted res =>
    show (if s.pendingRefreshes > 0 then
        refreshDone { s with pendingRefreshes := s.pendingRefreshes - 1 } res
      else s).hasAutoStarted = true
    split
    · rw [refreshDone_hasAutoStarted]
      exact h
    · exact h
  | scanSuccess result => exact h
  | scanError msg => exact h
  | unmount =>
    show (dropService { s with cancelled := true }).hasAutoStarted = true
    rw [dropService_hasAutoStarted]
    exact h

theorem autoStart_sets_flag (s : CState) (htr : triggersAutoStart s = true) :
    (step s Event.autoStart).hasAutoStarted = true := by
  show (applyStart (autoStartEffect s)).hasAutoStarted = true
  rw [applyStart_hasAutoStarted]
  unfold autoStartEffect
  unfold triggersAutoStart at htr
  rw [if_pos htr]
  simp [handleStartScanSync_hasAutoStarted]

theorem countAutoStarts_zero (s : CState) (evs : List Event)
    (h : s.hasAutoStarted = true) : countAutoStarts s evs = 0 := by
  induction evs generalizing s with
  | nil => rfl
  | cons e evs ih =>
    unfold countAutoStarts
    rw [ih (step s e) (hasAutoStarted_mono s e h)]
    have hne : ¬(e = Event.autoStart ∧ triggersAutoStart s) := by
      rintro ⟨rfl, htr⟩
      simp [triggersAutoStart, h] at htr
    rw [if_neg hne]

theorem countAutoStarts_le_one (s : CState) (evs : List Event) :
    countAutoStarts s evs ≤ 1 := by
  induction evs generalizing s with
  | nil => exact Nat.zero_le 1
  | cons e evs ih =>
    unfold countAutoStarts
    by_cases hc : e = Event.autoStart ∧ triggersAutoStart s
    · rw [if_pos hc]
      obtain ⟨rfl, htr⟩ := hc
      rw [countAutoStarts_zero _ _ (autoStart_sets_flag s htr)]
    · rw [if_neg hc]
      simpa using ih (step s e)

theorem handleStopScan_idle (s : CState) (href : s.scannerRef = none)
    (hscan : s.isScanning = false) : handleStopScan s = s := by
  unfold handleStopScan dropService
  rw [href]
  show { s with isScanning := false } = s
  rw [← hscan]

theorem handleStopScan_scannerRef (s : CState) :
    (handleStopScan s).scannerRef = none := by
  show (dropService s).scannerRef = none
  exact dropService_scannerRef s

theorem getLast_append_single {α : Type} (l : List α) (a : α) :
    (l ++ [a]).getLast? = some a := by
  rw [List.getLast?_append_cons]
  rfl

/-- C1: over every event sequence on one controller instance, at most one
hardware stream / decode session is open at any instant; a `start` issued
while the controller is already scanning (`Starting` or `Active`,
`isScanning = true`) is a no-op that changes no state (only a warning is
logged); and a `start` that does proceed first stops and discards the
previously held scanner-service instance (marking it stopped in the ledger
and clearing the ref) before constructing and holding the new instance. -/
theorem C1_at_most_one_session :
    (∀ (videoOk : Bool) (evs : List Event),
        openCount (run (initState videoOk) evs) ≤ 1)
    ∧ (∀ (s : CState) (ov : JSStr),
        s.videoAvailable = true → s.isScanning = true →
        step s (Event.startCall ov) = s)
    ∧ (∀ (s : CState) (ov : JSStr) (j : Nat),
        s.videoAvailable = true → s.isScanning = false → s.scannerRef = some j →
        (step s (Event.startCall ov)).instances =
          stopInstance s.instances j ++
            [{ id := s.nextId
               deviceId := resolveDeviceId ov s.selectedDeviceId s.devices
               started := false
               stopped := false }]
        ∧ (step s (Event.startCall ov)).scannerRef = some s.nextId) := by
  refine ⟨?_, ?_, ?_⟩
  · intro v evs
    exact le_trans (openCount_le_liveCountL _)
      (inv_run (initState v) evs (inv_initState v)).2
  · intro s ov hv hscan
    show applyStart (handleStartScanSync s ov) = s
    unfold handleStartScanSync
    rw [hv, resolveDeviceId_not_nullish, hscan]
    simp [applyStart]
  · intro s ov j hv hscan href
    show (applyStart (handleStartScanSync s ov)).instances = _
      ∧ (applyStart (handleStartScanSync s ov)).scannerRef = _
    unfold handleStartScanSync
    rw [hv, resolveDeviceId_not_nullish, hscan]
    simp [applyStart, dropService, href]

/-- Witness for C1 at concrete inputs. -/
theorem C1_at_most_one_session_witness :
    openCount (run (initState true)
        [Event.startCall JSStr.undef, Event.startResolved 0 true]) ≤ 1
    ∧ step { initState true with isScanning := true } (Event.startCall JSStr.undef)
        = { initState true with isScanning := true }
    ∧ ((step { initState true with scannerRef := some 0 }
          (Event.startCall JSStr.undef)).instances =
        stopInstance (initState true).instances 0 ++
          [{ id := 0
             deviceId := JSStr.str ""
             started := false
             stopped := false }]
      ∧ (step { initState true with scannerRef := some 0 }
          (Event.startCall JSStr.undef)).scannerRef = some 0) :=
  ⟨C1_at_most_one_session.1 true
      [Event.startCall JSStr.undef, Event.startResolved 0 true],
   C1_at_most_one_session.2.1 { initState true with isScanning := true }
      JSStr.undef rfl rfl,
   C1_at_most_one_session.2.2 { initState true with scannerRef := some 0 }
      JSStr.undef 0 rfl rfl rfl⟩

/-- C4: the one-shot auto-start flag is never reset by any event once set,
so along every event sequence from a fresh controller instance the
automatic implicit start fires at most once, regardless of later device
list refreshes, selection changes or state changes. -/
theorem C4_auto_start_once :
    (∀ (videoOk : Bool) (evs : List Event),
        countAutoStarts (initState videoOk) evs ≤ 1)
    ∧ (∀ (s : CState) (e : Event), s.hasAutoStarted = true →
        (step s e).hasAutoStarted = true) :=
  ⟨fun v evs => countAutoStarts_le_one (initState v) evs,
   fun s e h => hasAutoStarted_mono s e h⟩

/-- Witness for C4: a trace that enumerates devices, auto-starts, refreshes
again and sees no second auto-start; plus flag persistence across a stop. -/
theorem C4_auto_start_once_witness :
    countAutoStarts (initState true)
        [Event.enumCompleted (some [{ deviceId := "cam1", label := "" }]),
         Event.autoStart, Event.startResolved 0 true,
         Event.refreshCompleted (some [{ deviceId := "cam1", label := "Front" },
                                       { deviceId := "cam2", label := "Back" }]),
         Event.autoStart] ≤ 1
    ∧ (step { initState true with hasAutoStarted := true }
        Event.stopCall).hasAutoStarted = true :=
  ⟨C4_auto_start_once.1 true
      [Event.enumCompleted (some [{ deviceId := "cam1", label := "" }]),
       Event.autoStart, Event.startResolved 0 true,
       Event.refreshCompleted (some [{ deviceId := "cam1", label := "Front" },
                                     { deviceId := "cam2", label := "Back" }]),
       Event.autoStart],
   C4_auto_start_once.2 { initState true with hasAutoStarted := true }
      Event.stopCall rfl⟩

/-- C5: stop is total (defined and non-throwing from every state, embedded
as a total function) and idempotent: from an Idle controller (no scanner
service held, not scanning) it is the identity, and stopping twice always
equals stopping once. -/
theorem C5_stop_idempotent_total :
    (∀ s : CState, s.scannerRef = none → s.isScanning = false →
        step s Event.stopCall = s)
    ∧ (∀ s : CState,
        step (step s Event.stopCall) Event.stopCall = step s Event.stopCall) :=
  ⟨fun s href hscan => handleStopScan_idle s href hscan,
   fun s => handleStopScan_idle (handleStopScan s) (handleStopScan_scannerRef s) rfl⟩

/-- Witness for C5: stopping the freshly mounted (Idle) controller is the
identity. -/
theorem C5_stop_idempotent_total_witness :
    (initState true).scannerRef = none
    ∧ (initState true).isScanning = false
    ∧ step (initState true) Event.stopCall = initState true :=
  ⟨rfl, rfl, C5_stop_idempotent_total.1 (initState true) rfl rfl⟩

/-- C10: the "No camera device available or selected." branch of start is
unreachable: the resolved device id is a string for every override value
and catalog (never undefined/null, since the selected id is always a
string), so with an empty catalog and no selection a start passes the guard
with the empty-string device id, enters the scanning state and constructs a
scanner service bound to device id "" (attempting hardware acquisition)
instead of failing. -/
theorem C10_guard_unreachable :
    (∀ (ov : JSStr) (sel : String) (devs : List Device),
        nullish (resolveDeviceId ov sel devs) = false)
    ∧ (∀ s : CState, s.videoAvailable = true → s.isScanning = false →
        s.devices = [] → s.selectedDeviceId = "" →
        (step s (Event.startCall JSStr.undef)).error
            ≠ some "No camera device available or selected."
        ∧ (step s (Event.startCall JSStr.undef)).isScanning = true
        ∧ (step s (Event.startCall JSStr.undef)).scannerRef = some s.nextId
        ∧ (step s (Event.startCall JSStr.undef)).instances.getLast?
            = some { id := s.nextId
                     deviceId := JSStr.str ""
                     started := false
                     stopped := false }) := by
  refine ⟨resolveDeviceId_not_nullish, ?_⟩
  intro s hv hscan hdev hsel
  have hres : resolveDeviceId JSStr.undef s.selectedDeviceId s.devices
      = JSStr.str "" := by
    rw [hdev, hsel]
    rfl
  refine ⟨?_, ?_, ?_, ?_⟩
  · show (applyStart (handleStartScanSync s JSStr.undef)).error
        ≠ some "No camera device available or selected."
    unfold handleStartScanSync
    rw [hv, hres, hscan]
    simp [applyStart, nullish, dropService_error]
  · show (applyStart (handleStartScanSync s JSStr.undef)).isScanning = true
    unfold handleStartScanSync
    rw [hv, hres, hscan]
    simp [applyStart, nullish, dropService_isScanning]
  · show (applyStart (handleStartScanSync s JSStr.undef)).scannerRef = some s.nextId
    unfold handleStartScanSync
    rw [hv, hres, hscan]
    simp [applyStart, nullish, dropService_nextId]
  · show (applyStart (handleStartScanSync s JSStr.undef)).instances.getLast?
        = some { id := s.nextId
                 deviceId := JSStr.str ""
                 started := false
                 stopped := false }
    unfold handleStartScanSync
    rw [hv, hres, hscan]
    simp [applyStart, nullish, dropService_nextId, getLast_append_single]

/-- Witness for C10 on the freshly mounted controller with empty catalog. -/
theorem C10_guard_unreachable_witness :
    nullish (resolveDeviceId JSStr.undef "" []) = false
    ∧ ((step (initState true) (Event.startCall JSStr.undef)).error
          ≠ some "No camera device available or selected."
      ∧ (step (initState true) (Event.startCall JSStr.undef)).isScanning = true
      ∧ (step (initState true) (Event.startCall JSStr.undef)).scannerRef = some 0
      ∧ (step (initState true) (Event.startCall JSStr.undef)).instances.getLast?
          = some { id := 0
                   deviceId := JSStr.str ""
                   started := false
                   stopped := false }) :=
  ⟨C10_guard_unreachable.1 JSStr.undef "" [],
   C10_guard_unreachable.2 (initState true) rfl rfl rfl rfl⟩

/-- C2 counterexample: on the freshly mounted controller, where enumeration
has produced the empty catalog and no device id is passed or selected,
`start()` does NOT fail with the "no device available" condition and does
not remain Idle/Error: it proceeds (scanning state entered, a scanner
service constructed), and once the acquisition resolves the controller
holds an open hardware session. -/
theorem C2_counterexample :
    (step (initState true) (Event.startCall JSStr.undef)).error
        ≠ some "No camera device available or selected."
    ∧ (step (initState true) (Event.startCall JSStr.undef)).isScanning = true
    ∧ (step (initState true) (Event.startCall JSStr.undef)).instances.length = 1
    ∧ openCount (run (initState true)
        [Event.startCall JSStr.undef, Event.startResolved 0 true]) = 1
    ∧ (run (initState true)
        [Event.startCall JSStr.undef, Event.startResolved 0 true]).isScanning = true := by
  refine ⟨?_, ?_, ?_, ?_, ?_⟩ <;> decide

/-- C2 amended: if device enumeration has produced an empty catalog and no
device id is explicitly passed or currently selected, start does NOT fail:
the effective device id resolves to the empty string (which the guard
deliberately allows as "default device"), the controller clears its error,
enters the scanning state and constructs a scanner service bound to device
id "" — i.e. it proceeds to attempt hardware acquisition.  The
"no device available" failure would require the resolved id to be
undefined or null, which cannot happen. -/
theorem C2_amended_empty_catalog_start_proceeds (s : CState)
    (hv : s.videoAvailable = true) (hscan : s.isScanning = false)
    (hdev : s.devices = []) (hsel : s.selectedDeviceId = "") :
    (step s (Event.startCall JSStr.undef)).error = none
    ∧ (step s (Event.startCall JSStr.undef)).isScanning = true
    ∧ (step s (Event.startCall JSStr.undef)).instances.getLast?
        = some { id := s.nextId
                 deviceId := JSStr.str ""
                 started := false
                 stopped := false } := by
  have hres : resolveDeviceId JSStr.undef s.selectedDeviceId s.devices
      = JSStr.str "" := by
    rw [hdev, hsel]
    rfl
  refine ⟨?_, ?_, ?_⟩
  · show (applyStart (handleStartScanSync s JSStr.undef)).error = none
    unfold handleStartScanSync
    rw [hv, hres, hscan]
    simp [applyStart, nullish, dropService_error]
  · show (applyStart (handleStartScanSync s JSStr.undef)).isScanning = true
    unfold handleStartScanSync
    rw [hv, hres, hscan]
    simp [applyStart, nullish, dropService_isScanning]
  · show (applyStart (handleStartScanSync s JSStr.undef)).instances.getLast?
        = some { id := s.nextId
                 deviceId := JSStr.str ""
                 started := false
                 stopped := false }
    unfold handleStartScanSync
    rw [hv, hres, hscan]
    simp [applyStart, nullish, dropService_nextId, getLast_append_single]

/-- Witness for the amended C2 on the freshly mounted controller. -/
theorem C2_amended_empty_catalog_start_proceeds_witness :
    (initState true).devices = []
    ∧ ((step (initState true) (Event.startCall JSStr.undef)).error = none
      ∧ (step (initState true) (Event.startCall JSStr.undef)).isScanning = true
      ∧ (step (initState true) (Event.startCall JSStr.undef)).instances.getLast?
          = some { id := 0
                   deviceId := JSStr.str ""
                   started := false
                   stopped := false }) :=
  ⟨rfl, C2_amended_empty_catalog_start_proceeds (initState true) rfl rfl rfl rfl⟩

/-- C3 counterexample: in the Active state `cActiveExample`, a device
change to "cam2" is NOT equivalent to stop() followed by start("cam2"):
the handler only stops (controller ends not scanning, no new scanner
service constructed), whereas stop-then-start leaves it scanning with a
second service instance. -/
theorem C3_counterexample :
    (step cActiveExample (Event.deviceChange "cam2")).isScanning = false
    ∧ (step cActiveExample (Event.deviceChange "cam2")).instances.length = 1
    ∧ (step (step { cActiveExample with selectedDeviceId := "cam2" } Event.stopCall)
        (Event.startCall (JSStr.str "cam2"))).isScanning = true
    ∧ (step (step { cActiveExample with selectedDeviceId := "cam2" } Event.stopCall)
        (Event.startCall (JSStr.str "cam2"))).instances.length = 2
    ∧ step cActiveExample (Event.deviceChange "cam2")
        ≠ step (step { cActiveExample with selectedDeviceId := "cam2" } Event.stopCall)
            (Event.startCall (JSStr.str "cam2")) := by
  refine ⟨?_, ?_, ?_, ?_, ?_⟩ <;> decide

/-- C3 amended: switchDevice(newId) updates the selected device id and
then, when Active (scanning), performs only stop() — it does not restart
with the new device — while when not scanning it performs plain
start(newId) with no preceding stop. -/
theorem C3_amended_switch_semantics (s : CState) (newId : String) :
    (s.isScanning = true →
      step s (Event.deviceChange newId)
        = step { s with selectedDeviceId := newId } Event.stopCall)
    ∧ (s.isScanning = false →
      step s (Event.deviceChange newId)
        = step { s with selectedDeviceId := newId }
            (Event.startCall (JSStr.str newId))) := by
  constructor
  · intro hscan
    show applyStart (handleDeviceChange s newId)
        = step { s with selectedDeviceId := newId } Event.stopCall
    unfold handleDeviceChange
    rw [hscan]
    rfl
  · intro hscan
    show applyStart (handleDeviceChange s newId)
        = step { s with selectedDeviceId := newId }
            (Event.startCall (JSStr.str newId))
    unfold handleDeviceChange
    rw [hscan]
    rfl

/-- Witness for the amended C3: one Active and one non-scanning state. -/
theorem C3_amended_switch_semantics_witness :
    cActiveExample.isScanning = true
    ∧ step cActiveExample (Event.deviceChange "cam2")
        = step { cActiveExample with selectedDeviceId := "cam2" } Event.stopCall
    ∧ (initState true).isScanning = false
    ∧ step (initState true) (Event.deviceChange "cam2")
        = step { initState true with selectedDeviceId := "cam2" }
            (Event.startCall (JSStr.str "cam2")) :=
  ⟨rfl, (C3_amended_switch_semantics cActiveExample "cam2").1 rfl, rfl,
   (C3_amended_switch_semantics (initState true) "cam2").2 rfl⟩

/-- C6: a start whose hardware acquisition resolves only after the
scanner-service instance it belongs to was stopped (by an intervening
stop() or teardown) is discarded: the successful resumption leaves
`isScanning` unchanged (so it cannot transition the controller to Active),
the instance stays closed — stop() was already issued on it, so the
resolved stream is released rather than retained — and a failed resumption
of a pending start leaves the controller not scanning. -/
theorem C6_race_discard (s : CState) (i : Nat)
    (hstopped : ∀ inst ∈ s.instances, inst.id = i → inst.stopped = true) :
    (step s (Event.startResolved i true)).isScanning = s.isScanning
    ∧ (∀ inst ∈ (step s (Event.startResolved i true)).instances,
        inst.id = i → openInstance inst = false)
    ∧ (i ∈ s.pendingStarts →
        (step s (Event.startResolved i false)).isScanning = false) := by
  refine ⟨?_, ?_, ?_⟩
  · by_cases hp : i ∈ s.pendingStarts <;> simp [step, hp]
  · intro inst hmem hid
    by_cases hp : i ∈ s.pendingStarts
    · have hmem2 : inst ∈ startInstance s.instances i := by
        simpa [step, hp] using hmem
      unfold startInstance at hmem2
      rw [List.mem_map] at hmem2
      obtain ⟨x, hx, rfl⟩ := hmem2
      by_cases hxi : x.id = i
      · have hstop := hstopped x hx hxi
        simp [openInstance, hxi, hstop]
      · rw [if_neg hxi] at hid
        exact absurd hid hxi
    · have hmem2 : inst ∈ s.instances := by simpa [step, hp] using hmem
      simp [openInstance, hstopped inst hmem2 hid]
  · intro hp
    simp [step, hp, handleErrorCb]

/-- Witness for C6: start, then stop, then the stale acquisition resolves;
the controller stays stopped and the instance stays closed. -/
theorem C6_race_discard_witness :
    (∀ inst ∈ (run (initState true)
        [Event.startCall JSStr.undef, Event.stopCall]).instances,
        inst.id = 0 → inst.stopped = true)
    ∧ ((step (run (initState true) [Event.startCall JSStr.undef, Event.stopCall])
          (Event.startResolved 0 true)).isScanning
        = (run (initState true)
            [Event.startCall JSStr.undef, Event.stopCall]).isScanning
      ∧ (∀ inst ∈ (step (run (initState true)
            [Event.startCall JSStr.undef, Event.stopCall])
            (Event.startResolved 0 true)).instances,
          inst.id = 0 → openInstance inst = false)
      ∧ (0 ∈ (run (initState true)
            [Event.startCall JSStr.undef, Event.stopCall]).pendingStarts →
          (step (run (initState true) [Event.startCall JSStr.undef, Event.stopCall])
            (Event.startResolved 0 false)).isScanning = false)) :=
  ⟨by decide,
   C6_race_discard (run (initState true) [Event.startCall JSStr.undef, Event.stopCall])
      0 (by decide)⟩

/-- C9: a completed post-start device-list refresh replaces the stored
device list only when the refreshed list contains at least one device with
a non-empty label, and it changes nothing else: selected device id,
scanning flag, error, scan result, service ref, instance ledger and
auto-start flag are all untouched. -/
theorem step_refreshSome (s : CState) (devs : List Device)
    (hp : s.pendingRefreshes > 0) :
    step s (Event.refreshCompleted (some devs)) =
      (if devs.any (fun d => d.label ≠ "") then
        { s with devices := devs, pendingRefreshes := s.pendingRefreshes - 1 }
      else { s with pendingRefreshes := s.pendingRefreshes - 1 }) := by
  show (if s.pendingRefreshes > 0 then
      refreshDone { s with pendingRefreshes := s.pendingRefreshes - 1 } (some devs)
    else s) = _
  rw [if_pos hp]
  rfl

theorem C9_refresh_frame (s : CState) (devs : List Device)
    (hp : 0 < s.pendingRefreshes) :
    (step s (Event.refreshCompleted (some devs))).devices
      = (if devs.any (fun d => d.label ≠ "") then devs else s.devices)
    ∧ (step s (Event.refreshCompleted (some devs))).selectedDeviceId
        = s.selectedDeviceId
    ∧ (step s (Event.refreshCompleted (some devs))).isScanning = s.isScanning
    ∧ (step s (Event.refreshCompleted (some devs))).error = s.error
    ∧ (step s (Event.refreshCompleted (some devs))).scanResult = s.scanResult
    ∧ (step s (Event.refreshCompleted (some devs))).scannerRef = s.scannerRef
    ∧ (step s (Event.refreshCompleted (some devs))).instances = s.instances
    ∧ (step s (Event.refreshCompleted (some devs))).hasAutoStarted
        = s.hasAutoStarted := by
  have hp2 : s.pendingRefreshes > 0 := hp
  rw [step_refreshSome s devs hp2]
  by_cases hl : devs.any (fun d => d.label ≠ "") = true
  · rw [if_pos hl, if_pos hl]
    exact ⟨rfl, rfl, rfl, rfl, rfl, rfl, rfl, rfl⟩
  · rw [if_neg hl, if_neg hl]
    exact ⟨rfl, rfl, rfl, rfl, rfl, rfl, rfl, rfl⟩

/-- Witness for C9: one refresh with a labelled device (list replaced) on a
state with a pending refresh. -/
theorem C9_refresh_frame_witness :
    0 < ({ initState true with pendingRefreshes := 1 } : CState).pendingRefreshes
    ∧ ((step { initState true with pendingRefreshes := 1 }
          (Event.refreshCompleted
            (some [{ deviceId := "cam1", label := "Front" }]))).devices
        = (if [({ deviceId := "cam1", label := "Front" } : Device)].any
              (fun d => d.label ≠ "")
           then [({ deviceId := "cam1", label := "Front" } : Device)]
           else ({ initState true with pendingRefreshes := 1 } : CState).devices)
      ∧ (step { initState true with pendingRefreshes := 1 }
          (Event.refreshCompleted
            (some [{ deviceId := "cam1", label := "Front" }]))).selectedDeviceId
          = ({ initState true with pendingRefreshes := 1 } : CState).selectedDeviceId
      ∧ (step { initState true with pendingRefreshes := 1 }
          (Event.refreshCompleted
            (some [{ deviceId := "cam1", label := "Front" }]))).isScanning
          = ({ initState true with pendingRefreshes := 1 } : CState).isScanning
      ∧ (step { initState true with pendingRefreshes := 1 }
          (Event.refreshCompleted
            (some [{ deviceId := "cam1", label := "Front" }]))).error
          = ({ initState true with pendingRefreshes := 1 } : CState).error
      ∧ (step { initState true with pendingRefreshes := 1 }
          (Event.refreshCompleted
            (some [{ deviceId := "cam1", label := "Front" }]))).scanResult
          = ({ initState true with pendingRefreshes := 1 } : CState).scanResult
      ∧ (step { initState true with pendingRefreshes := 1 }
          (Event.refreshCompleted
            (some [{ deviceId := "cam1", label := "Front" }]))).scannerRef
          = ({ initState true with pendingRefreshes := 1 } : CState).scannerRef
      ∧ (step { initState true with pendingRefreshes := 1 }
          (Event.refreshCompleted
            (some [{ deviceId := "cam1", label := "Front" }]))).instances
          = ({ initState true with pendingRefreshes := 1 } : CState).instances
      ∧ (step { initState true with pendingRefreshes := 1 }
          (Event.refreshCompleted
            (some [{ deviceId := "cam1", label := "Front" }]))).hasAutoStarted
          = ({ initState true with pendingRefreshes := 1 } : CState).hasAutoStarted) :=
  ⟨Nat.zero_lt_one,
   C9_refresh_frame { initState true with pendingRefreshes := 1 }
      [{ deviceId := "cam1", label := "Front" }] Nat.zero_lt_one⟩

end QRClient

namespace RemoteLog

/-- C7: a `remoteLog` emission (embedded as a total function: it cannot
throw to its caller) writes the formatted single-line record to the local
console before any network effect — the only effects preceding it are local
console writes from the dataString computation; it attempts the
fire-and-forget beacon exactly when `navigator.sendBeacon` is available;
it performs exactly one fallback `fetch` when the beacon is unavailable or
reported immediate failure and none when the beacon succeeded; every fetch
targets `/log` with `keepalive := true`; and neither delivery attempt is
ever repeated — failures yield only local console writes. -/
theorem C7_emit_policy (env : NetEnv) (clientId timestamp source : String)
    (level : LogLevel) (component message : String)
    (data : Option (Option String)) :
    (∃ rest,
        remoteLog env clientId timestamp source level component message data
          = dataStringEffects data ++
              Effect.console (consoleStreamFor level)
                (formatRecord timestamp clientId level source component message
                  (dataStringOf data)) :: rest
      ∧ ∀ e ∈ dataStringEffects data, isConsole e = true)
    ∧ beaconCount
        (remoteLog env clientId timestamp source level component message data)
        = (if env.sendBeaconAvailable then 1 else 0)
    ∧ fetchCount
        (remoteLog env clientId timestamp source level component message data)
        = (if env.sendBeaconAvailable && env.beaconResult then 0 else 1)
    ∧ (∀ e ∈ remoteLog env clientId timestamp source level component message data,
        fetchWellFormed e = true) := by
  obtain ⟨sb, br, ff⟩ := env
  refine ⟨⟨_, rfl, ?_⟩, ?_, ?_, ?_⟩
  · cases data with
    | none => intro e he; simp [dataStringEffects] at he
    | some d =>
      cases d with
      | none =>
        intro e he
        simp [dataStringEffects] at he
        subst he
        rfl
      | some t => intro e he; simp [dataStringEffects] at he
  · cases sb <;> cases br <;> cases ff <;> rcases data with _ | (_ | t) <;>
      simp [remoteLog, beaconCount, sendWithFetch, dataStringEffects]
  · cases sb <;> cases br <;> cases ff <;> rcases data with _ | (_ | t) <;>
      simp [remoteLog, fetchCount, sendWithFetch, dataStringEffects]
  · cases sb <;> cases br <;> cases ff <;> rcases data with _ | (_ | t) <;>
      simp [remoteLog, sendWithFetch, dataStringEffects, fetchWellFormed,
        List.forall_mem_cons]

/-- C8: an emission whose auxiliary payload fails to serialize substitutes
the fixed placeholder string " [Unserializable data]" for the serialized
payload and still completes: the formatted record containing the
placeholder is written to the console, at least one network delivery
attempt (beacon or fetch) still occurs, and every network payload carries
the placeholder in its dataString field — all without throwing. -/
theorem C8_unserializable_placeholder (env : NetEnv)
    (clientId timestamp source : String) (level : LogLevel)
    (component message : String) :
    dataStringOf (some none) = " [Unserializable data]"
    ∧ Effect.console (consoleStreamFor level)
        (formatRecord timestamp clientId level source component message
          " [Unserializable data]")
        ∈ remoteLog env clientId timestamp source level component message
            (some none)
    ∧ 1 ≤ beaconCount (remoteLog env clientId timestamp source level component
            message (some none))
        + fetchCount (remoteLog env clientId timestamp source level component
            message (some none))
    ∧ (∀ e ∈ remoteLog env clientId timestamp source level component message
          (some none),
        carriesDataString " [Unserializable data]" e = true) := by
  obtain ⟨sb, br, ff⟩ := env
  refine ⟨rfl, ?_, ?_, ?_⟩
  · cases sb <;> cases br <;> cases ff <;>
      simp [remoteLog, sendWithFetch, dataStringEffects, dataStringOf]
  · cases sb <;> cases br <;> cases ff <;>
      simp [remoteLog, beaconCount, fetchCount, sendWithFetch, dataStringEffects]
  · cases sb <;> cases br <;> cases ff <;>
      simp [remoteLog, sendWithFetch, dataStringEffects, carriesDataString,
        dataStringOf, List.forall_mem_cons]

end RemoteLog
